import Mathlib

/-!
Verification of the epiplar.io 3D reconstruction core: a shallow embedding of
`depth_completion.py`, `depth_service.py` and `2dseg.py` over exact rational
arithmetic, together with theorems settling the specification claims.

External library calls (OpenCV morphology, Open3D voxel downsampling and ICP,
numpy random sampling) are modelled as explicit function parameters or, where
the spec prescribes their semantics (voxel-grid decimation), as definitions
following that description.
-/

attribute [local semireducible] Rat.mul Rat.inv Rat.add Rat.sub

namespace Epiplar

/-! ## Depth completion (`depth_completion.py`) -/

/-- A dense `H × W` grid of values, the embedding of a 2-D numpy array. -/
abbrev Mat (H W : ℕ) (α : Type) := Fin H → Fin W → α

/-- Validity mask of `DepthCompletion.complete` (lines 85-88): a pixel is valid
when its depth is positive (and finite, automatic over ℚ) and, when a
confidence map is given, its confidence reaches the threshold. -/
def validMask (H W : ℕ) (depthMap : Mat H W ℚ) (confidenceMap : Option (Mat H W ℚ))
    (confThreshold : ℚ) (i : Fin H) (j : Fin W) : Bool :=
  match confidenceMap with
  | some c => decide (confThreshold ≤ c i j) && decide (0 < depthMap i j)
  | none => decide (0 < depthMap i j)

/-- Cast of a float value to `uint16` as numpy's `astype(np.uint16)` does:
truncate toward zero, reduce mod 2^16. -/
def ratToU16 (q : ℚ) : ℕ := (Int.toNat ⌊q⌋) % 65536

/-- Embedding of `DepthCompletion.complete` (lines 64-140). The chain of
OpenCV operations on the normalised `uint16` image (dilation, morphological
closing, bilateral/Gaussian blur, optional upward extrapolation) is an external
library computation; it is abstracted as the parameter `fill`, which receives
the normalised image and returns the processed one. Everything around it —
the validity mask, the degenerate-input early returns, the normalisation to
the 0-65535 range, the denormalisation, and the final restoration of original
values at valid pixels — is translated directly from the source. -/
def complete (H W : ℕ) (fill : Mat H W ℕ → Mat H W ℕ)
    (depthMap : Mat H W ℚ) (confidenceMap : Option (Mat H W ℚ)) (confThreshold : ℚ) :
    Mat H W ℚ :=
  let valid : Fin H × Fin W → Bool := fun p =>
    validMask H W depthMap confidenceMap confThreshold p.1 p.2
  let validSet : Finset (Fin H × Fin W) := Finset.univ.filter (fun p => valid p = true)
  if hne : validSet.Nonempty then
    let depthMin := validSet.inf' hne (fun p => depthMap p.1 p.2)
    let depthMax := validSet.sup' hne (fun p => depthMap p.1 p.2)
    let depthRange := depthMax - depthMin
    if depthRange ≤ 0 then depthMap
    else
      let depthU16 : Mat H W ℕ := fun i j =>
        if valid (i, j) then ratToU16 ((depthMap i j - depthMin) / depthRange * 65535) else 0
      let depthFilled := fill depthU16
      fun i j =>
        if valid (i, j) then depthMap i j
        else (depthFilled i j : ℚ) / 65535 * depthRange + depthMin
  else depthMap

/-- A numpy array of unknown rank: a shape together with row-major flat data.
Used to embed the `ndim` checks of `complete` / `complete_batch`. -/
structure NDArray where
  shape : List ℕ
  data : List ℚ
  deriving DecidableEq, Repr

/-- View flat row-major data as an `h × w` grid (out-of-range reads give 0). -/
def matOfData (h w : ℕ) (data : List ℚ) : Mat h w ℚ :=
  fun i j => data.getD (i * w + j) 0

/-- Flatten an `h × w` grid back to row-major data. -/
def dataOfMat (h w : ℕ) (m : Mat h w ℚ) : List ℚ :=
  ((List.finRange h).map (fun i => (List.finRange w).map (fun j => m i j))).flatten

/-- Frame `i` of a flat `[n, h, w]` array. -/
def frameSlice (data : List ℚ) (h w i : ℕ) : List ℚ :=
  (data.drop (i * (h * w))).take (h * w)

/-- Embedding of `DepthCompletion.complete` including the shape check of
lines 81-82: a non-2-D input is rejected with a `ValueError` (modelled as
`Except.error`) before any processing. -/
def completeChecked (fill : (h w : ℕ) → Mat h w ℕ → Mat h w ℕ)
    (a : NDArray) (confidenceMap : Option NDArray) (confThreshold : ℚ) :
    Except String NDArray :=
  match a.shape with
  | [h, w] =>
      .ok ⟨[h, w], dataOfMat h w (complete h w (fill h w) (matOfData h w a.data)
        (confidenceMap.map (fun c => matOfData h w c.data)) confThreshold)⟩
  | _ => .error ("Expected 2D depth map, got shape " ++ toString a.shape)

/-- Embedding of `DepthCompletion.complete_batch` (lines 142-169): checks the
input is 3-D (lines 159-160), then applies `complete` independently per frame,
slicing the optional confidence stack the same way. -/
def completeBatchChecked (fill : (h w : ℕ) → Mat h w ℕ → Mat h w ℕ)
    (a : NDArray) (confidenceMaps : Option NDArray) (confThreshold : ℚ) :
    Except String NDArray :=
  match a.shape with
  | [n, h, w] =>
      .ok ⟨[n, h, w], ((List.range n).map (fun i =>
        dataOfMat h w (complete h w (fill h w)
          (matOfData h w (frameSlice a.data h w i))
          (confidenceMaps.map (fun c => matOfData h w (frameSlice c.data h w i)))
          confThreshold))).flatten⟩
  | _ => .error ("Expected 3D array [N, H, W], got shape " ++ toString a.shape)

/-! ## Geometry primitives -/

/-- A 3D point/vector with rational coordinates. -/
structure Vec3 where
  x : ℚ
  y : ℚ
  z : ℚ
  deriving DecidableEq, Repr

/-- A 3×3 matrix. -/
abbrev Mat3 := Fin 3 → Fin 3 → ℚ

/-- A 3×4 matrix (rotation-translation extrinsic block). -/
abbrev Mat34 := Fin 3 → Fin 4 → ℚ

/-- A 4×4 homogeneous matrix. -/
abbrev Mat4 := Fin 4 → Fin 4 → ℚ

/-- The 3×3 identity matrix (`np.eye(3)`). -/
def eye3 : Mat3 := fun i j => if i = j then 1 else 0

/-- The 4×4 identity matrix (`np.eye(4)`). -/
def eye4 : Mat4 := fun i j => if i = j then 1 else 0

/-- Determinant of a 3×3 matrix by cofactor expansion. -/
def det3x3 (m : Mat3) : ℚ :=
  m 0 0 * (m 1 1 * m 2 2 - m 1 2 * m 2 1)
    - m 0 1 * (m 1 0 * m 2 2 - m 1 2 * m 2 0)
    + m 0 2 * (m 1 0 * m 2 1 - m 1 1 * m 2 0)

/-- The 3×3 minor of a 4×4 matrix obtained by deleting row `r` and column `c`. -/
def minor4 (m : Mat4) (r c : Fin 4) : Mat3 :=
  fun i j => m (r.succAbove i) (c.succAbove j)

/-- Cofactor of a 4×4 matrix. -/
def cofactor4 (m : Mat4) (r c : Fin 4) : ℚ :=
  (-1 : ℚ) ^ ((r : ℕ) + (c : ℕ)) * det3x3 (minor4 m r c)

/-- Determinant of a 4×4 matrix by expansion along the first row. -/
def det4x4 (m : Mat4) : ℚ :=
  m 0 0 * cofactor4 m 0 0 + m 0 1 * cofactor4 m 0 1
    + m 0 2 * cofactor4 m 0 2 + m 0 3 * cofactor4 m 0 3

/-- Inverse of a 4×4 matrix via the adjugate: the value `np.linalg.inv`
returns on an invertible input. On a singular matrix `np.linalg.inv` raises
`LinAlgError` instead; the point-cloud builder models that error path with an
explicit zero-determinant check at its call site, so this formula is only
ever relied upon where the determinant is nonzero. -/
def inv4 (m : Mat4) : Mat4 :=
  fun i j => cofactor4 m j i / det4x4 m

/-- Multiply a 4×4 matrix with a 4-vector. -/
def mulVec4 (m : Mat4) (v : Fin 4 → ℚ) : Fin 4 → ℚ :=
  fun i => m i 0 * v 0 + m i 1 * v 1 + m i 2 * v 2 + m i 3 * v 3

/-- Multiply a 3×3 matrix with a `Vec3`. -/
def mulVec3 (m : Mat3) (v : Vec3) : Vec3 :=
  ⟨m 0 0 * v.x + m 0 1 * v.y + m 0 2 * v.z,
   m 1 0 * v.x + m 1 1 * v.y + m 1 2 * v.z,
   m 2 0 * v.x + m 2 1 * v.y + m 2 2 * v.z⟩

/-- Transpose of a 3×3 matrix. -/
def transpose3 (m : Mat3) : Mat3 := fun i j => m j i

/-- Componentwise vector addition. -/
def addV (a b : Vec3) : Vec3 := ⟨a.x + b.x, a.y + b.y, a.z + b.z⟩

/-- Componentwise vector subtraction. -/
def subV (a b : Vec3) : Vec3 := ⟨a.x - b.x, a.y - b.y, a.z - b.z⟩

/-- Vector negation. -/
def negV (a : Vec3) : Vec3 := ⟨-a.x, -a.y, -a.z⟩

/-- Scalar multiplication of a vector. -/
def smulV (s : ℚ) (a : Vec3) : Vec3 := ⟨s * a.x, s * a.y, s * a.z⟩

/-- Squared Euclidean distance between two points (`np.linalg.norm(a-b)**2`). -/
def distSq (a b : Vec3) : ℚ :=
  (a.x - b.x) ^ 2 + (a.y - b.y) ^ 2 + (a.z - b.z) ^ 2

/-! ## Point-cloud builder (`depth_service.py`, `_build_point_cloud_from_prediction`) -/

/-- An extrinsic matrix as DA3 may return it: `(3,4)` or `(4,4)`. -/
inductive Extr where
  | e34 (m : Mat34)
  | e44 (m : Mat4)
  deriving DecidableEq

/-- Embedding of `DepthService._as_homogeneous44` (lines 47-56): pad a `(3,4)`
extrinsic into the top three rows of `np.eye(4)`, pass `(4,4)` through. -/
def asHomogeneous44 : Extr → Mat4
  | .e44 m => m
  | .e34 m => fun i j => if h : (i : ℕ) < 3 then m ⟨i, h⟩ j else eye4 i j

/-- The DA3 prediction object: named optional fields, as probed by `getattr`
in the source. Colors are `uint8` channel values in `0-255`. -/
structure Prediction (N H W : ℕ) where
  depth : Option (Fin N → Fin H → Fin W → ℚ)
  processedImages : Option (Fin N → Fin H → Fin W → Fin 3 → ℕ)
  intrinsics : Option (Fin N → Mat3)
  extrinsics : Option (Fin N → Extr)

/-- A colored point cloud: parallel position and color lists. -/
structure PointCloud where
  points : List Vec3
  colors : List Vec3
  deriving DecidableEq, Repr

/-- Unprojection of pixel `(u, v)` at depth `z` through intrinsics `K`
(lines 90-100): `x = (u - cx) z / fx`, `y = (v - cy) z / fy`. -/
def unproject (K : Mat3) (u v z : ℚ) : Vec3 :=
  ⟨(u - K 0 2) * z / K 0 0, (v - K 1 2) * z / K 1 1, z⟩

/-- Apply a 4×4 homogeneous transform to a point (lines 100-101). -/
def transformH (m : Mat4) (p : Vec3) : Vec3 :=
  let w := mulVec4 m ![p.x, p.y, p.z, 1]
  ⟨w 0, w 1, w 2⟩

/-- The OpenCV → glTF axis-convention flip (lines 103-107): negate Y and Z. -/
def negYZ (p : Vec3) : Vec3 := ⟨p.x, -p.y, -p.z⟩

/-- World points produced by one view (lines 76-114): pixels scanned row-major
(`meshgrid` + `flatten`), a pixel contributing iff its depth is positive
(and finite, automatic over ℚ); each valid pixel is unprojected to camera
space, moved to world space through the inverse extrinsic, and sign-flipped. -/
def viewPoints (H W : ℕ) (K : Mat3) (ext : Extr) (d : Fin H → Fin W → ℚ) : List Vec3 :=
  let c2w := inv4 (asHomogeneous44 ext)
  ((List.finRange H).map (fun r => (List.finRange W).filterMap (fun c =>
    if 0 < d r c then
      some (negYZ (transformH c2w (unproject K ((c : ℕ) : ℚ) ((r : ℕ) : ℚ) (d r c))))
    else none))).flatten

/-- Colors produced by one view (lines 109-111): the `uint8` image reshaped
row-major, kept at valid pixels, divided by 255. -/
def viewColors (H W : ℕ) (img : Fin H → Fin W → Fin 3 → ℕ) (d : Fin H → Fin W → ℚ) :
    List Vec3 :=
  ((List.finRange H).map (fun r => (List.finRange W).filterMap (fun c =>
    if 0 < d r c then
      some (⟨(img r c 0 : ℚ) / 255, (img r c 1 : ℚ) / 255, (img r c 2 : ℚ) / 255⟩ : Vec3)
    else none))).flatten

/-- Embedding of `DepthService._build_point_cloud_from_prediction`
(lines 58-122). Missing depth/intrinsics/extrinsics raise (lines 67-68),
missing processed images raise (lines 69-70). The view loop computes
`np.linalg.inv(ext)` for every view before looking at its pixels (line 79),
so a singular extrinsic on any view raises `LinAlgError`; that error path is
modelled by the zero-determinant guard over all views. Views with no valid
pixel are skipped (lines 86-87; a skipped view and a view contributing an
empty batch are indistinguishable in the accumulated list), and an empty
accumulation raises (lines 116-117). Exceptions are modelled as
`Except.error`. -/
def buildPointCloudFromPrediction (N H W : ℕ) (p : Prediction N H W) :
    Except String PointCloud :=
  match p.depth, p.intrinsics, p.extrinsics with
  | some d, some ks, some exts =>
    match p.processedImages with
    | none => .error "DA3 prediction missing processed_images"
    | some imgs =>
      if ∀ i : Fin N, det4x4 (asHomogeneous44 (exts i)) ≠ 0 then
        let allPoints :=
          ((List.finRange N).map (fun i => viewPoints H W (ks i) (exts i) (d i))).flatten
        let allColors := ((List.finRange N).map (fun i => viewColors H W (imgs i) (d i))).flatten
        if allPoints = [] then .error "No valid points found in prediction"
        else .ok ⟨allPoints, allColors⟩
      else .error "Singular matrix"
  | _, _, _ => .error "DA3 prediction missing depth/intrinsics/extrinsics"

/-- Some view of the prediction has a pixel with positive depth. -/
def hasValidPixel (N H W : ℕ) (p : Prediction N H W) : Prop :=
  ∃ d, p.depth = some d ∧ ∃ (i : Fin N) (r : Fin H) (c : Fin W), 0 < d i r c

/-- Every view's homogeneous extrinsic is invertible, so that no
`np.linalg.inv` call of the view loop raises `LinAlgError`. -/
def allExtrinsicsInvertible (N H W : ℕ) (p : Prediction N H W) : Prop :=
  ∃ exts, p.extrinsics = some exts ∧
    ∀ i : Fin N, det4x4 (asHomogeneous44 (exts i)) ≠ 0

/-! ## Multi-LOD export (`depth_service.py`, `_export_multi_lod_glb`)

The voxel-grid decimation itself is Open3D's `voxel_down_sample`, an external
call; it is modelled from the spec's description (§4.3: "one output point per
occupied voxel, position/color averaged"), with the grid anchored at the
cloud's minimum bound. The cube root in `(volume / target_points) ** (1/3)`
is floating-point; it is abstracted as the parameter `cbrt`. -/

/-- Componentwise minimum corner of a cloud's axis-aligned bounding box. -/
def bboxMin (cloud : List Vec3) : Vec3 :=
  match cloud with
  | [] => ⟨0, 0, 0⟩
  | p :: ps => ps.foldl (fun a q => ⟨min a.x q.x, min a.y q.y, min a.z q.z⟩) p

/-- Componentwise maximum corner of a cloud's axis-aligned bounding box. -/
def bboxMax (cloud : List Vec3) : Vec3 :=
  match cloud with
  | [] => ⟨0, 0, 0⟩
  | p :: ps => ps.foldl (fun a q => ⟨max a.x q.x, max a.y q.y, max a.z q.z⟩) p

/-- Volume of the axis-aligned bounding box (`bbox.volume()`). -/
def bboxVolume (cloud : List Vec3) : ℚ :=
  let mn := bboxMin cloud
  let mx := bboxMax cloud
  (mx.x - mn.x) * (mx.y - mn.y) * (mx.z - mn.z)

/-- Voxel-grid cell index of a point, for edge length `s` and grid origin `mn`. -/
def voxelCell (mn : Vec3) (s : ℚ) (p : Vec3) : ℤ × ℤ × ℤ :=
  (⌊(p.x - mn.x) / s⌋, ⌊(p.y - mn.y) / s⌋, ⌊(p.z - mn.z) / s⌋)

/-- Modelled from the spec (§4.3), standing in for Open3D's
`voxel_down_sample`: one output point per occupied voxel cell, the output
point being the average of the cell's members. -/
def voxelDownSample (cloud : List Vec3) (s : ℚ) : List Vec3 :=
  let mn := bboxMin cloud
  let cells := (cloud.map (voxelCell mn s)).dedup
  cells.map (fun cell =>
    let members := cloud.filter (fun p => voxelCell mn s p = cell)
    smulV (1 / (members.length : ℚ)) (members.foldl addV ⟨0, 0, 0⟩))

/-- One LOD tier of `_export_multi_lod_glb` (lines 202-212): downsample only
when the full cloud strictly exceeds the tier's point budget and the bounding
box has positive volume, with voxel edge `(volume / target) ^ (1/3)`;
otherwise the full cloud is used as-is. -/
def lodTier (cbrt : ℚ → ℚ) (cloud : List Vec3) (targetPoints : ℕ) : List Vec3 :=
  if targetPoints < cloud.length then
    let volume := bboxVolume cloud
    if 0 < volume then voxelDownSample cloud (cbrt (volume / (targetPoints : ℚ)))
    else cloud
  else cloud

/-- Embedding of the per-tier loop of `_export_multi_lod_glb` (lines 191-258):
each configured tier `(name, max_points)` yields an asset recording the tier
name and its actual exported point count (`actual_points = len(pcd.points)`,
line 214, recorded in the `ModelAsset` at line 244). -/
def exportMultiLodGlb (cbrt : ℚ → ℚ) (cloud : List Vec3) (lodConfigs : List (String × ℕ)) :
    List (String × ℕ) :=
  lodConfigs.map (fun cfg => (cfg.1, (lodTier cbrt cloud cfg.2).length))

/-! ## Furniture localization and merging (`2dseg.py`) -/

/-- Truncation toward zero, the semantics of Python's `int(...)` and numpy's
`astype(int)` on a float. -/
def truncQ (q : ℚ) : ℤ := if 0 ≤ q then ⌊q⌋ else -⌊-q⌋

/-- Insert a value into a sorted list of rationals. -/
def insertSorted (x : ℚ) : List ℚ → List ℚ
  | [] => [x]
  | y :: ys => if x ≤ y then x :: y :: ys else y :: insertSorted x ys

/-- Sort a list of rationals ascending. -/
def sortQ (l : List ℚ) : List ℚ := l.foldr insertSorted []

/-- The `np.median` of a nonempty 1-D array: middle element of the sorted data
for odd length, mean of the two middle elements for even length. (Junk value 0
on the empty list; `npMedian` handles that case.) -/
def medianD (l : List ℚ) : ℚ :=
  let s := sortQ l
  let n := s.length
  if n % 2 = 1 then s.getD (n / 2) 0
  else (s.getD (n / 2 - 1) 0 + s.getD (n / 2) 0) / 2

/-- Total `np.median`: on an empty array numpy produces NaN, modelled `none`. -/
def npMedian (l : List ℚ) : Option ℚ := if l = [] then none else some (medianD l)

/-- Coordinate-wise median of a point list, the embedding of
`np.median(points, axis=0)` on a nonempty array. -/
def npMedianVec3 (pts : List Vec3) : Vec3 :=
  ⟨medianD (pts.map (·.x)), medianD (pts.map (·.y)), medianD (pts.map (·.z))⟩

/-- Expected height-above-floor ranges per furniture label
(`FURNITURE_HEIGHT_RANGES`, lines 54-69), with the `"default"` fallback. -/
def furnitureHeightRanges (label : String) : ℚ × ℚ :=
  if label = "chair" then (3/10, 12/10)
  else if label = "sofa" then (3/10, 1)
  else if label = "table" then (6/10, 9/10)
  else if label = "bed" then (3/10, 8/10)
  else if label = "tv" then (5/10, 2)
  else if label = "plant" then (0, 15/10)
  else if label = "laptop" then (7/10, 1)
  else if label = "refrigerator" then (5/10, 2)
  else if label = "vase" then (7/10, 12/10)
  else if label = "clock" then (1, 25/10)
  else if label = "cup" then (7/10, 1)
  else if label = "bottle" then (7/10, 1)
  else if label = "sink" then (8/10, 1)
  else (0, 2)

/-- The fixed label → RGB palette (`MARKER_COLORS`, lines 38-50), with the
neutral-gray `"default"` fallback for unknown labels. -/
def markerColors (label : String) : Vec3 :=
  if label = "chair" then ⟨1, 2/10, 2/10⟩
  else if label = "sofa" then ⟨2/10, 8/10, 2/10⟩
  else if label = "table" then ⟨1, 6/10, 0⟩
  else if label = "bed" then ⟨3/10, 5/10, 9/10⟩
  else if label = "tv" then ⟨2/10, 2/10, 2/10⟩
  else if label = "plant" then ⟨1/10, 6/10, 1/10⟩
  else if label = "laptop" then ⟨3/10, 3/10, 3/10⟩
  else if label = "refrigerator" then ⟨8/10, 8/10, 8/10⟩
  else if label = "vase" then ⟨95/100, 5/10, 8/10⟩
  else if label = "clock" then ⟨8/10, 6/10, 2/10⟩
  else ⟨5/10, 5/10, 5/10⟩

/-- Labels that have their own entry in `MARKER_COLORS`. -/
def markerColorKeys : List String :=
  ["chair", "sofa", "table", "bed", "tv", "plant", "laptop", "refrigerator", "vase", "clock"]

/-! ### ICP alignment (`align_point_clouds_icp`, lines 712-786) -/

/-- Componentwise extent of a cloud's axis-aligned bounding box
(`max(axis=0) - min(axis=0)`). -/
def bboxExtent (pts : List Vec3) : Vec3 := subV (bboxMax pts) (bboxMin pts)

/-- Per-axis target-to-source extent ratios that survive the sanity floor
(lines 732-740): each ratio is `target_extent / (source_extent + 1e-6)`, and
only ratios strictly above `0.1` are kept. -/
def keptScaleFactors (source target : List Vec3) : List ℚ :=
  let ss := bboxExtent source
  let ts := bboxExtent target
  [ts.x / (ss.x + 1/1000000), ts.y / (ss.y + 1/1000000),
   ts.z / (ss.z + 1/1000000)].filter (fun r => decide (1/10 < r))

/-- The `np.clip(q, lo, hi)` of a (non-NaN) scalar. -/
def clipQ (q lo hi : ℚ) : ℚ := min (max q lo) hi

/-- Scale estimate of `align_point_clouds_icp` (lines 732-741): median of the
kept per-axis ratios, clipped to `[0.5, 2.0]`. When no ratio survives the
floor, `np.median` of the empty selection is NaN and `np.clip` keeps NaN;
that outcome is modelled as `none`. -/
def icpScaleEstimate (source target : List Vec3) : Option ℚ :=
  (npMedian (keptScaleFactors source target)).map (fun m => clipQ m (1/2) 2)

/-- Result of `align_point_clouds_icp`, in the source's return order
`(rotation, translation, fitness, scale)`; `scale = none` models NaN. -/
structure IcpTransform where
  rot : Mat3
  trans : Vec3
  fitness : ℚ
  scale : Option ℚ

/-- Embedding of `align_point_clouds_icp` (lines 712-786). With fewer than 10
points on either side it returns the identity no-op immediately (lines
728-730). Otherwise the scale estimate is computed and the Open3D
point-to-plane ICP refinement — an external call whose inputs are exactly the
two clouds and the scale (the scaled source, the normals, and the
centroid-difference initial transform are all functions of these) — is
abstracted as the parameter `icp`, returning `(R, t, fitness)`. -/
def alignPointCloudsIcp (icp : List Vec3 → List Vec3 → Option ℚ → Mat3 × Vec3 × ℚ)
    (source target : List Vec3) : IcpTransform :=
  if source.length < 10 ∨ target.length < 10 then ⟨eye3, ⟨0, 0, 0⟩, 0, some 1⟩
  else
    let scale := icpScaleEstimate source target
    let r := icp source target scale
    ⟨r.1, r.2.1, r.2.2, scale⟩

/-! ### Detection merging (`merge_3d_detections`, lines 914-979) -/

/-- A 2-D bounding box given as float pixel coordinates. -/
structure BBox2 where
  x1 : ℚ
  y1 : ℚ
  x2 : ℚ
  y2 : ℚ
  deriving Repr

/-- A single 2-D detection (`Detection2D`, lines 72-79). -/
structure Detection2D where
  label : String
  confidence : ℚ
  bbox : BBox2
  mask : Option (ℕ → ℕ → Bool)
  frameIdx : ℕ

/-- A back-projected 3-D detection (`Detection3D`, lines 82-89). -/
structure Detection3D where
  label : String
  center : Vec3
  confidence : ℚ
  points : List Vec3
  frameIdx : ℕ
  deriving DecidableEq, Repr

/-- A merged 3-D object (`Object3D`, lines 92-99). -/
structure Object3D where
  label : String
  center : Vec3
  confidence : ℚ
  color : Vec3
  points : List Vec3
  deriving DecidableEq, Repr

/-- Automatic merge threshold (lines 923-929): 8% of the scene size — the
largest per-axis extent of the detection centers — floored at 0.5. -/
def autoThreshold (dets : List Detection3D) : ℚ :=
  let ext := bboxExtent (dets.map (·.center))
  max (1/2) (max ext.x (max ext.y ext.z) * (8/100))

/-- Mean of the centers of a cluster (`np.mean([d.center ...], axis=0)`). -/
def clusterCentroid (c : List Detection3D) : Vec3 :=
  smulV (1 / (c.length : ℚ)) (c.foldl (fun a d => addV a d.center) ⟨0, 0, 0⟩)

/-- Euclidean comparison `‖p - q‖ < thr`, evaluated on squares (equivalent for
a nonnegative threshold; a negative threshold can never exceed a norm). -/
def closeLt (p q : Vec3) (thr : ℚ) : Bool :=
  if thr < 0 then false else decide (distSq p q < thr * thr)

/-- One step of the greedy clustering loop (lines 942-955): append the
detection to the first cluster whose running centroid is within the threshold
of its center, or start a new cluster at the end. -/
def insertDet (thr : ℚ) (det : Detection3D) :
    List (List Detection3D) → List (List Detection3D)
  | [] => [[det]]
  | c :: rest =>
    if closeLt det.center (clusterCentroid c) thr then (c ++ [det]) :: rest
    else c :: insertDet thr det rest

/-- Greedy proximity clustering of same-label detections, in list order. -/
def greedyClusters (thr : ℚ) (dets : List Detection3D) : List (List Detection3D) :=
  dets.foldl (fun cs d => insertDet thr d cs) []

/-- The cluster member with the highest confidence, first such on ties —
Python's `max(cluster, key=lambda d: d.confidence)` (line 960). -/
def bestDetection (c : List Detection3D) : Detection3D :=
  match c with
  | [] => ⟨"", ⟨0, 0, 0⟩, 0, [], 0⟩
  | d :: ds => ds.foldl (fun b e => if b.confidence < e.confidence then e else b) d

/-- Conversion of one cluster into an `Object3D` (lines 958-977): the center
is the coordinate-wise median of the union of the members' points, the
confidence is the best member's, the color comes from the palette. -/
def clusterToObject (label : String) (c : List Detection3D) : Object3D :=
  let allPts := (c.map (·.points)).flatten
  { label := label
    center := npMedianVec3 allPts
    confidence := (bestDetection c).confidence
    color := markerColors label
    points := allPts }

/-- Distinct labels in first-appearance order (the key order of the
`defaultdict` built at lines 932-934). -/
def uniqueLabels (dets : List Detection3D) : List String :=
  dets.foldl (fun acc d => if d.label ∈ acc then acc else acc ++ [d.label]) []

/-- Embedding of `merge_3d_detections` (lines 914-979): resolve the threshold,
group by label, greedily cluster each label's detections, and convert every
cluster to an object. -/
def merge3dDetections (distanceThreshold : Option ℚ) (dets : List Detection3D) :
    List Object3D :=
  if dets = [] then []
  else
    let thr := distanceThreshold.getD (autoThreshold dets)
    ((uniqueLabels dets).map (fun lab =>
      (greedyClusters thr (dets.filter (fun d => d.label = lab))).map
        (clusterToObject lab))).flatten

/-! ### Projection-based localization
(`find_glb_points_in_detection_with_icp`, lines 158-299) -/

/-- A depth map with explicit dimensions, the embedding of a 2-D numpy depth
array accessed by `depth_map[row, col]`. -/
structure DepthMapArr where
  h : ℕ
  w : ℕ
  val : ℕ → ℕ → ℚ

/-- An integer pixel box. -/
structure IBox where
  x1 : ℤ
  y1 : ℤ
  x2 : ℤ
  y2 : ℤ
  deriving DecidableEq, Repr

/-- Integer bbox clamped to the frame (lines 196-198): `map(int, bbox)`, then
`x1, y1 = max(0, ·)` and `x2 = min(W, ·)`, `y2 = min(H, ·)`. -/
def clampedBBox (b : BBox2) (W H : ℕ) : IBox :=
  ⟨max 0 (truncQ b.x1), max 0 (truncQ b.y1),
   min (W : ℤ) (truncQ b.x2), min (H : ℤ) (truncQ b.y2)⟩

/-- Semantic height pre-filter (lines 203-212): with a known floor level, keep
reference points whose height above the floor lies in the label's expected
range; without one, keep everything. -/
def heightFiltered (label : String) (floorY : Option ℚ) (glb : List Vec3) : List Vec3 :=
  match floorY with
  | some fy =>
    let r := furnitureHeightRanges label
    glb.filter (fun p => decide (fy + r.1 ≤ p.y) && decide (p.y ≤ fy + r.2))
  | none => glb

/-- Expected object depth from the view's own depth map (lines 217-233): scale
the bbox into depth-map coordinates, clamp, inset by a quarter margin on each
side, collect the strictly positive (finite) depths of that region, and take
their median when more than 5 remain. -/
def expectedDepth (dm : Option DepthMapArr) (W H : ℕ) (bb : IBox) : Option ℚ :=
  match dm with
  | none => none
  | some dm =>
    let sx : ℚ := (dm.w : ℚ) / (W : ℚ)
    let sy : ℚ := (dm.h : ℚ) / (H : ℚ)
    let dx1 := max 0 (truncQ ((bb.x1 : ℚ) * sx))
    let dy1 := max 0 (truncQ ((bb.y1 : ℚ) * sy))
    let dx2 := min (dm.w : ℤ) (truncQ ((bb.x2 : ℚ) * sx))
    let dy2 := min (dm.h : ℤ) (truncQ ((bb.y2 : ℚ) * sy))
    if dx1 < dx2 ∧ dy1 < dy2 then
      let a1 := dx1.toNat
      let a2 := dx2.toNat
      let b1 := dy1.toNat
      let b2 := dy2.toNat
      let mx := (a2 - a1) / 4
      let my := (b2 - b1) / 4
      let region := ((List.range ((b2 - my) - (b1 + my))).map (fun r =>
        (List.range ((a2 - mx) - (a1 + mx))).map (fun c =>
          dm.val (b1 + my + r) (a1 + mx + c)))).flatten
      let valids := region.filter (fun q => decide (0 < q))
      if 5 < valids.length then some (medianD valids) else none
    else none

/-- Inverse ICP transform with scale (lines 236-239): undo the rigid transform
(`R_inv = Rᵀ`, `t_inv = -Rᵀ t`), then divide out the scale. -/
def icpInverse (Ricp : Mat3) (tIcp : Vec3) (scaleIcp : ℚ) (p : Vec3) : Vec3 :=
  let Rinv := transpose3 Ricp
  let tInv := negV (mulVec3 Rinv tIcp)
  smulV (1 / scaleIcp) (addV (mulVec3 Rinv p) tInv)

/-- World-to-camera transform through a `(3,4)` extrinsic (lines 242-244). -/
def camOfWorld (ext : Mat34) (p : Vec3) : Vec3 :=
  let R : Mat3 := fun i j => ext i j.castSucc
  addV (mulVec3 R p) ⟨ext 0 3, ext 1 3, ext 2 3⟩

/-- Pinhole projection to pixel coordinates (lines 255-259):
`u = x·fx/z + cx`, `v = y·fy/z + cy`. -/
def projectedUV (K : Mat3) (cam : Vec3) : ℚ × ℚ :=
  (cam.x * K 0 0 / cam.z + K 0 2, cam.y * K 1 1 / cam.z + K 1 2)

/-- Membership of a projected pixel in the detection region (lines 262-273):
inside the mask (with clipped integer indexing) and in frame bounds when a
mask exists, else inside the bbox inset by a 15% margin. -/
def insideDetection (mask : Option (ℕ → ℕ → Bool)) (W H : ℕ) (bb : IBox) (u v : ℚ) :
    Bool :=
  match mask with
  | some m =>
    let ui := (min (max (truncQ u) 0) ((W : ℤ) - 1)).toNat
    let vi := (min (max (truncQ v) 0) ((H : ℤ) - 1)).toNat
    m vi ui && decide (0 ≤ u) && decide (u < (W : ℚ)) && decide (0 ≤ v) && decide (v < (H : ℚ))
  | none =>
    let w : ℚ := ((bb.x2 - bb.x1 : ℤ) : ℚ)
    let h : ℚ := ((bb.y2 - bb.y1 : ℤ) : ℚ)
    decide ((bb.x1 : ℚ) + w * (15/100) ≤ u) && decide (u ≤ (bb.x2 : ℚ) - w * (15/100)) &&
      decide ((bb.y1 : ℚ) + h * (15/100) ≤ v) && decide (v ≤ (bb.y2 : ℚ) - h * (15/100))

/-- Depth-consistency filter (lines 275-280): active only when an expected
depth exists and is positive; keeps camera depths within the relative
tolerance band. -/
def depthConsistent (ed : Option ℚ) (tol camz : ℚ) : Bool :=
  match ed with
  | some e =>
    if 0 < e then decide (e * (1 - tol) ≤ camz) && decide (camz ≤ e * (1 + tol)) else true
  | none => true

/-- Height-filtered points paired with their camera-space positions, keeping
only those in front of the camera (`z > 0.01`, lines 246-249). -/
def zPairs (K_ext : Mat34) (Ricp : Mat3) (tIcp : Vec3) (scaleIcp : ℚ)
    (hf : List Vec3) : List (Vec3 × Vec3) :=
  (hf.map (fun p => (p, camOfWorld K_ext (icpInverse Ricp tIcp scaleIcp p)))).filter
    (fun pc => decide (1/100 < pc.2.z))

/-- The reference-cloud points that survive the projection and
depth-consistency filters (lines 262-282), given the z-filtered pairs. -/
def insideFilter (K : Mat3) (mask : Option (ℕ → ℕ → Bool)) (W H : ℕ) (bb : IBox)
    (ed : Option ℚ) (tol : ℚ) (pairsZ : List (Vec3 × Vec3)) : List Vec3 :=
  (pairsZ.filter (fun pc =>
    let uv := projectedUV K pc.2
    insideDetection mask W H bb uv.1 uv.2 && depthConsistent ed tol pc.2.z)).map (·.1)

/-- All reference-cloud points surviving the height, projection and
depth-consistency filters for one detection — the claim-side notion of
"surviving points". Early-rejection situations (empty reference cloud,
degenerate bbox) leave no survivors. -/
def survivingGlbPoints (det : Detection2D) (glb : List Vec3) (H W : ℕ) (K : Mat3)
    (ext : Mat34) (Ricp : Mat3) (tIcp : Vec3) (scaleIcp : ℚ) (dm : Option DepthMapArr)
    (tol : ℚ) (floorY : Option ℚ) : List Vec3 :=
  if glb = [] then []
  else
    let bb := clampedBBox det.bbox W H
    if bb.x2 ≤ bb.x1 ∨ bb.y2 ≤ bb.y1 then []
    else
      insideFilter K det.mask W H bb (expectedDepth dm W H bb) tol
        (zPairs ext Ricp tIcp scaleIcp (heightFiltered det.label floorY glb))

/-- Embedding of `find_glb_points_in_detection_with_icp` (lines 158-299),
mirroring the source's early returns. The subsampling of large survivor sets
(`np.random.choice`, lines 289-291) is external randomness, abstracted as the
parameter `subsample`. -/
def findGlbPointsInDetectionWithIcp (subsample : List Vec3 → List Vec3)
    (det : Detection2D) (glb : List Vec3) (H W : ℕ) (K : Mat3) (ext : Mat34)
    (Ricp : Mat3) (tIcp : Vec3) (scaleIcp : ℚ) (dm : Option DepthMapArr)
    (tol : ℚ) (floorY : Option ℚ) : Option Detection3D :=
  if glb = [] then none
  else
    let bb := clampedBBox det.bbox W H
    if bb.x2 ≤ bb.x1 ∨ bb.y2 ≤ bb.y1 then none
    else
      let hf := heightFiltered det.label floorY glb
      if hf = [] then none
      else
        let ed := expectedDepth dm W H bb
        let pairsZ := zPairs ext Ricp tIcp scaleIcp hf
        if pairsZ = [] then none
        else
          let ptsInside := insideFilter K det.mask W H bb ed tol pairsZ
          if ptsInside.length < 3 then none
          else
            some { label := det.label
                   center := npMedianVec3 ptsInside
                   confidence := det.confidence
                   points := if 100 < ptsInside.length then subsample ptsInside else ptsInside
                   frameIdx := det.frameIdx }

/-! ## Concrete instances used by the theorems below -/

/-- Coarsening of a voxel cell index when the edge length is multiplied by `k`. -/
def cellCoarsen (k : ℕ) (c : ℤ × ℤ × ℤ) : ℤ × ℤ × ℤ :=
  (⌊(c.1 : ℚ) / (k : ℚ)⌋, ⌊(c.2.1 : ℚ) / (k : ℚ)⌋, ⌊(c.2.2 : ℚ) / (k : ℚ)⌋)

/-- An identity filling stage (a `fill` instantiation). -/
def fillId : (h w : ℕ) → Mat h w ℕ → Mat h w ℕ := fun _ _ m => m

/-- A one-pixel depth map with value 5. -/
def depthOnePixel : Mat 1 1 ℚ := fun _ _ => 5

/-- A 1-D array, wrongly shaped for `complete`. -/
def arrShape1 : NDArray := ⟨[3], [1, 2, 3]⟩

/-- A 2-D array, wrongly shaped for `complete_batch`. -/
def arrShape2 : NDArray := ⟨[2, 2], [1, 2, 3, 4]⟩

/-- The single-view prediction of the spec's end-to-end scenario: a 2×2 depth
map of all 1.0, identity intrinsics and extrinsics, constant color 128. -/
def predSingleView : Prediction 1 2 2 :=
  { depth := some (fun _ _ _ => 1)
    processedImages := some (fun _ _ _ _ => 128)
    intrinsics := some (fun _ => eye3)
    extrinsics := some (fun _ => .e44 eye4) }

/-- A prediction with valid depth, intrinsics and extrinsics but no processed
images. -/
def predNoImages : Prediction 1 1 1 :=
  { depth := some (fun _ _ _ => 1)
    processedImages := none
    intrinsics := some (fun _ => eye3)
    extrinsics := some (fun _ => .e44 eye4) }

/-- A prediction with all four fields present and a valid pixel, but a
singular (all-zero `(3,4)`) extrinsic: `np.linalg.inv` raises on it. -/
def predSingular : Prediction 1 1 1 :=
  { depth := some (fun _ _ _ => 1)
    processedImages := some (fun _ _ _ _ => 128)
    intrinsics := some (fun _ => eye3)
    extrinsics := some (fun _ => .e34 (fun _ _ => 0)) }

/-- A 28-point cloud on a 6×6×6 bounding box: many duplicates of the origin,
the far corner, and a 2×2×2 cluster at coordinates 2.5/3.5 that splits into 8
voxel cells at edge 3 but collapses to one cell at edge 2. -/
def cloudNonMono : List Vec3 :=
  List.replicate 19 (⟨0, 0, 0⟩ : Vec3) ++ [⟨6, 6, 6⟩] ++
    [⟨5/2, 5/2, 5/2⟩, ⟨5/2, 5/2, 7/2⟩, ⟨5/2, 7/2, 5/2⟩, ⟨5/2, 7/2, 7/2⟩,
     ⟨7/2, 5/2, 5/2⟩, ⟨7/2, 5/2, 7/2⟩, ⟨7/2, 7/2, 5/2⟩, ⟨7/2, 7/2, 7/2⟩]

/-- The cube roots arising for `cloudNonMono` (volume 216) with point budgets
1, 8, 27: exact values of `(216/1)^(1/3)`, `(216/8)^(1/3)`, `(216/27)^(1/3)`. -/
def cbrtNonMono (q : ℚ) : ℚ :=
  if q = 216 then 6 else if q = 27 then 3 else if q = 8 then 2 else 1

/-- A 66-point cloud on the same 6×6×6 box, exceeding a budget of 64. -/
def cloudNested : List Vec3 :=
  List.replicate 57 (⟨0, 0, 0⟩ : Vec3) ++ [⟨6, 6, 6⟩] ++
    [⟨5/2, 5/2, 5/2⟩, ⟨5/2, 5/2, 7/2⟩, ⟨5/2, 7/2, 5/2⟩, ⟨5/2, 7/2, 7/2⟩,
     ⟨7/2, 5/2, 5/2⟩, ⟨7/2, 5/2, 7/2⟩, ⟨7/2, 7/2, 5/2⟩, ⟨7/2, 7/2, 7/2⟩]

/-- The cube roots arising for `cloudNested` (volume 216) with point budgets
1, 8, 64: exact values `6`, `3`, `3/2` — each an integer multiple of the next. -/
def cbrtNested (q : ℚ) : ℚ :=
  if q = 216 then 6 else if q = 27 then 3 else if q = 27/8 then 3/2 else 1

/-- A one-point cloud. -/
def cloudOne : List Vec3 := [⟨0, 0, 0⟩]

/-- A trivial stand-in for the external Open3D ICP refinement. -/
def icpZero : List Vec3 → List Vec3 → Option ℚ → Mat3 × Vec3 × ℚ :=
  fun _ _ _ => (eye3, ⟨0, 0, 0⟩, 0)

/-- A degenerate 5-point cloud. -/
def fiveCloud : List Vec3 := List.replicate 5 (⟨0, 0, 0⟩ : Vec3)

/-- Ten points spread along the main diagonal. -/
def srcTen : List Vec3 := (List.range 10).map (fun i => ⟨(i : ℚ), (i : ℚ), (i : ℚ)⟩)

/-- Ten coincident points: every bounding-box extent is zero. -/
def tgtTen : List Vec3 := List.replicate 10 (⟨0, 0, 0⟩ : Vec3)

/-- Two nearby chair detections from different frames. -/
def detChairA : Detection3D := ⟨"chair", ⟨0, 0, 0⟩, 9/10, [⟨0, 0, 0⟩], 0⟩

/-- Second chair detection, 0.1 units away from the first. -/
def detChairB : Detection3D := ⟨"chair", ⟨1/10, 0, 0⟩, 8/10, [⟨1, 0, 0⟩], 1⟩

/-- The object the merger produces for the two chair detections. -/
def objChair : Object3D := clusterToObject "chair" [detChairA, detChairB]

/-- A 2-D detection with a plain bbox and no mask. -/
def detPlain : Detection2D := ⟨"chair", 1, ⟨0, 0, 10, 10⟩, none, 0⟩

/-- A `(3,4)` identity-rotation zero-translation extrinsic. -/
def extId34 : Mat34 := fun i j => if (j : ℕ) = (i : ℕ) then 1 else 0

/-! ## Claim C1 -/

/-- C1: for every 2-D depth map, optional confidence map and threshold — and
any behaviour of the external morphological filling stages — the map returned
by `DepthCompletion.complete` equals the input exactly at every
originally-valid pixel (positive, finite depth, confidence at least the
threshold when a confidence map is given). -/
theorem complete_preserves_originally_valid_pixels
    (H W : ℕ) (fill : Mat H W ℕ → Mat H W ℕ) (depthMap : Mat H W ℚ)
    (confidenceMap : Option (Mat H W ℚ)) (confThreshold : ℚ) (i : Fin H) (j : Fin W)
    (h : validMask H W depthMap confidenceMap confThreshold i j = true) :
    complete H W fill depthMap confidenceMap confThreshold i j = depthMap i j := by
  have hne : (Finset.univ.filter
      (fun p : Fin H × Fin W =>
        validMask H W depthMap confidenceMap confThreshold p.1 p.2 = true)).Nonempty :=
    ⟨(i, j), by simp [h]⟩
  simp only [complete]
  rw [dif_pos hne]
  split
  · rfl
  · simp [h]

/-- Witness for C1 at a concrete one-pixel map with positive depth. -/
theorem complete_preserves_originally_valid_pixels_witness :
    validMask 1 1 depthOnePixel none (3/10) 0 0 = true ∧
    complete 1 1 (fillId 1 1) depthOnePixel none (3/10) 0 0 = depthOnePixel 0 0 :=
  ⟨by decide,
   complete_preserves_originally_valid_pixels 1 1 (fillId 1 1) depthOnePixel none (3/10) 0 0
     (by decide)⟩

/-! ## Claim C10 -/

/-- C10: `complete` rejects every input that is not 2-dimensional with a
`ValueError`, and `complete_batch` rejects every input that is not
3-dimensional, in both cases before any processing. -/
theorem shape_checks_reject_wrong_rank
    (fill : (h w : ℕ) → Mat h w ℕ → Mat h w ℕ) (a b : NDArray)
    (confidenceMap confidenceMaps : Option NDArray) (confThreshold : ℚ) :
    (a.shape.length ≠ 2 →
      completeChecked fill a confidenceMap confThreshold =
        .error ("Expected 2D depth map, got shape " ++ toString a.shape)) ∧
    (b.shape.length ≠ 3 →
      completeBatchChecked fill b confidenceMaps confThreshold =
        .error ("Expected 3D array [N, H, W], got shape " ++ toString b.shape)) := by
  constructor
  · intro h
    obtain ⟨s, d⟩ := a
    match s with
    | [] => rfl
    | [_] => rfl
    | [_, _] => exact absurd rfl h
    | _ :: _ :: _ :: _ => rfl
  · intro h
    obtain ⟨s, d⟩ := b
    match s with
    | [] => rfl
    | [_] => rfl
    | [_, _] => rfl
    | [_, _, _] => exact absurd rfl h
    | _ :: _ :: _ :: _ :: _ => rfl

/-- Witness for C10: a 1-D array is rejected by `complete` and a 2-D array by
`complete_batch`. -/
theorem shape_checks_reject_wrong_rank_witness :
    (arrShape1.shape.length ≠ 2 ∧ arrShape2.shape.length ≠ 3) ∧
    completeChecked fillId arrShape1 none (3/10) =
      .error ("Expected 2D depth map, got shape " ++ toString arrShape1.shape) ∧
    completeBatchChecked fillId arrShape2 none (3/10) =
      .error ("Expected 3D array [N, H, W], got shape " ++ toString arrShape2.shape) :=
  ⟨⟨by decide, by decide⟩,
   (shape_checks_reject_wrong_rank fillId arrShape1 arrShape2 none none (3/10)).1 (by decide),
   (shape_checks_reject_wrong_rank fillId arrShape1 arrShape2 none none (3/10)).2 (by decide)⟩

/-! ## Claim C5 -/

/-- C5: whenever either input cloud has fewer than 10 points, the ICP aligner
returns the identity rotation, zero translation, zero fitness and scale 1,
for any behaviour of the external ICP refinement, without raising. -/
theorem icp_degenerate_input_returns_identity
    (icp : List Vec3 → List Vec3 → Option ℚ → Mat3 × Vec3 × ℚ)
    (source target : List Vec3) (h : source.length < 10 ∨ target.length < 10) :
    alignPointCloudsIcp icp source target = ⟨eye3, ⟨0, 0, 0⟩, 0, some 1⟩ := by
  unfold alignPointCloudsIcp
  rw [if_pos h]

/-- Witness for C5 on two 5-point clouds. -/
theorem icp_degenerate_input_returns_identity_witness :
    (fiveCloud.length < 10 ∨ fiveCloud.length < 10) ∧
    alignPointCloudsIcp icpZero fiveCloud fiveCloud = ⟨eye3, ⟨0, 0, 0⟩, 0, some 1⟩ :=
  ⟨Or.inl (by decide),
   icp_degenerate_input_returns_identity icpZero fiveCloud fiveCloud (Or.inl (by decide))⟩

/-! ## Claim C4 -/

/-- C4: a tier whose point budget is at least the source cloud's size uses the
full cloud as-is — no downsampling, upsampling or duplication — and the
exported asset for that tier records exactly the source cloud's point count. -/
theorem lod_tier_no_downsample_when_within_budget
    (cbrt : ℚ → ℚ) (cloud : List Vec3) (lodConfigs : List (String × ℕ))
    (name : String) (targetPoints : ℕ) (hmem : (name, targetPoints) ∈ lodConfigs)
    (hK : cloud.length ≤ targetPoints) :
    lodTier cbrt cloud targetPoints = cloud ∧
    (name, cloud.length) ∈ exportMultiLodGlb cbrt cloud lodConfigs := by
  have ht : ¬ targetPoints < cloud.length := not_lt.mpr hK
  have h1 : lodTier cbrt cloud targetPoints = cloud := by
    unfold lodTier
    rw [if_neg ht]
  refine ⟨h1, ?_⟩
  unfold exportMultiLodGlb
  have h2 := List.mem_map_of_mem
    (fun cfg : String × ℕ => (cfg.1, (lodTier cbrt cloud cfg.2).length)) hmem
  simpa [h1] using h2

/-- Witness for C4: a one-point cloud with a budget of 5. -/
theorem lod_tier_no_downsample_when_within_budget_witness :
    (("full", 5) ∈ [("full", 5)] ∧ cloudOne.length ≤ 5) ∧
    lodTier cbrtNested cloudOne 5 = cloudOne ∧
    ("full", cloudOne.length) ∈ exportMultiLodGlb cbrtNested cloudOne [("full", 5)] :=
  ⟨⟨by decide, by decide⟩,
   lod_tier_no_downsample_when_within_budget cbrtNested cloudOne [("full", 5)] "full" 5
     (by decide) (by decide)⟩

/-! ## Claim C9 -/

/-- C9: the projection strategy emits a `Detection3D` only when at least 3
reference-cloud points survive the height, projection and depth-consistency
filters; with fewer than 3 survivors it returns `none` (and, being total, it
never raises). -/
theorem projection_requires_three_survivors
    (subsample : List Vec3 → List Vec3) (det : Detection2D) (glb : List Vec3)
    (H W : ℕ) (K : Mat3) (ext : Mat34) (Ricp : Mat3) (tIcp : Vec3) (scaleIcp : ℚ)
    (dm : Option DepthMapArr) (tol : ℚ) (floorY : Option ℚ) :
    ((survivingGlbPoints det glb H W K ext Ricp tIcp scaleIcp dm tol floorY).length < 3 →
      findGlbPointsInDetectionWithIcp subsample det glb H W K ext Ricp tIcp scaleIcp dm tol
        floorY = none) ∧
    (∀ d3, findGlbPointsInDetectionWithIcp subsample det glb H W K ext Ricp tIcp scaleIcp dm
        tol floorY = some d3 →
      3 ≤ (survivingGlbPoints det glb H W K ext Ricp tIcp scaleIcp dm tol floorY).length) := by
  constructor
  · intro hlen
    simp only [survivingGlbPoints] at hlen
    simp only [findGlbPointsInDetectionWithIcp]
    split_ifs at hlen ⊢
    all_goals rfl
  · intro d3 hfind
    simp only [findGlbPointsInDetectionWithIcp] at hfind
    simp only [survivingGlbPoints]
    split_ifs at hfind ⊢ with h1 h2 h3 h4 h5 h6
    all_goals omega

/-- Witness for C9 on an empty reference cloud: no survivors, no detection. -/
theorem projection_requires_three_survivors_witness :
    (survivingGlbPoints detPlain [] 10 10 eye3 extId34 eye3 ⟨0, 0, 0⟩ 1 none (3/10)
      none).length < 3 ∧
    findGlbPointsInDetectionWithIcp id detPlain [] 10 10 eye3 extId34 eye3 ⟨0, 0, 0⟩ 1 none
      (3/10) none = none :=
  ⟨by decide,
   (projection_requires_three_survivors id detPlain [] 10 10 eye3 extId34 eye3 ⟨0, 0, 0⟩ 1
     none (3/10) none).1 (by decide)⟩

/-! ## Claim C6 -/

/-- C6 counterexample: two clouds of 10 points each — the target one fully
degenerate, so that no per-axis ratio exceeds the 0.1 floor — make
`align_point_clouds_icp` return a NaN scale (`np.median` of an empty
selection), not a finite positive scalar in the clamp range. -/
theorem icp_scale_counterexample :
    srcTen.length = 10 ∧ tgtTen.length = 10 ∧
    (alignPointCloudsIcp icpZero srcTen tgtTen).scale = none := by
  refine ⟨by decide, by decide, ?_⟩
  set_option maxRecDepth 8000 in decide

/-- C6 amended: for clouds of at least 10 points each, provided at least one
per-axis extent ratio exceeds the 0.1 sanity floor, the returned scale is the
median of the surviving ratios clamped to `[0.5, 2.0]`, hence a finite
positive scalar within that range. -/
theorem icp_scale_is_clamped_median
    (icp : List Vec3 → List Vec3 → Option ℚ → Mat3 × Vec3 × ℚ)
    (source target : List Vec3) (hs : 10 ≤ source.length) (ht : 10 ≤ target.length)
    (hk : keptScaleFactors source target ≠ []) :
    (alignPointCloudsIcp icp source target).scale =
      some (clipQ (medianD (keptScaleFactors source target)) (1/2) 2) ∧
    (1/2 : ℚ) ≤ clipQ (medianD (keptScaleFactors source target)) (1/2) 2 ∧
    clipQ (medianD (keptScaleFactors source target)) (1/2) 2 ≤ 2 := by
  have hcond : ¬ (source.length < 10 ∨ target.length < 10) := by
    push_neg
    exact ⟨hs, ht⟩
  refine ⟨?_, ?_, ?_⟩
  · unfold alignPointCloudsIcp
    rw [if_neg hcond]
    simp [icpScaleEstimate, npMedian, hk]
  · exact le_min (le_max_right _ _) (by norm_num)
  · exact min_le_right _ _

/-- Witness for the amended C6 on two identical 10-point clouds. -/
theorem icp_scale_is_clamped_median_witness :
    (10 ≤ srcTen.length ∧ keptScaleFactors srcTen srcTen ≠ []) ∧
    (alignPointCloudsIcp icpZero srcTen srcTen).scale =
      some (clipQ (medianD (keptScaleFactors srcTen srcTen)) (1/2) 2) ∧
    (1/2 : ℚ) ≤ clipQ (medianD (keptScaleFactors srcTen srcTen)) (1/2) 2 ∧
    clipQ (medianD (keptScaleFactors srcTen srcTen)) (1/2) 2 ≤ 2 :=
  ⟨⟨by decide, by decide⟩,
   icp_scale_is_clamped_median icpZero srcTen srcTen (by decide) (by decide) (by decide)⟩

/-! ## Claim C2 -/

/-- C2: on a single view with a 2×2 depth map of all 1.0, identity intrinsics
and identity extrinsics, the builder produces exactly the 4 world points, one
per pixel in row-major order, each equal to the pixel's unprojected
camera-space point transformed by the inverse extrinsic with its Y and Z
coordinates negated. -/
theorem single_view_2x2_unit_depth_four_points :
    (buildPointCloudFromPrediction 1 2 2 predSingleView).toOption = some
      { points :=
          [negYZ (transformH (inv4 (asHomogeneous44 (.e44 eye4))) (unproject eye3 0 0 1)),
           negYZ (transformH (inv4 (asHomogeneous44 (.e44 eye4))) (unproject eye3 1 0 1)),
           negYZ (transformH (inv4 (asHomogeneous44 (.e44 eye4))) (unproject eye3 0 1 1)),
           negYZ (transformH (inv4 (asHomogeneous44 (.e44 eye4))) (unproject eye3 1 1 1))]
        colors := List.replicate 4 ⟨128/255, 128/255, 128/255⟩ } := by
  decide

/-! ## Claim C8 -/

/-- A single view contributes no points exactly when none of its pixels has
positive depth. -/
theorem viewPoints_eq_nil_iff (H W : ℕ) (K : Mat3) (ext : Extr)
    (d : Fin H → Fin W → ℚ) :
    viewPoints H W K ext d = [] ↔ ∀ (r : Fin H) (c : Fin W), ¬ 0 < d r c := by
  unfold viewPoints
  rw [List.flatten_eq_nil_iff]
  constructor
  · intro h r c hpos
    have h1 := h _ (List.mem_map_of_mem _ (List.mem_finRange r))
    rw [List.filterMap_eq_nil_iff] at h1
    have h2 := h1 _ (List.mem_finRange c)
    simp [hpos] at h2
  · intro h l hl
    simp only [List.mem_map] at hl
    obtain ⟨r, _, rfl⟩ := hl
    rw [List.filterMap_eq_nil_iff]
    intro c _
    simp [h r c]

/-- The accumulated point list is empty exactly when no view has a valid
pixel. -/
theorem allViewPoints_eq_nil_iff (N H W : ℕ) (ks : Fin N → Mat3) (exts : Fin N → Extr)
    (d : Fin N → Fin H → Fin W → ℚ) :
    ((List.finRange N).map (fun i => viewPoints H W (ks i) (exts i) (d i))).flatten = [] ↔
      ∀ (i : Fin N) (r : Fin H) (c : Fin W), ¬ 0 < d i r c := by
  rw [List.flatten_eq_nil_iff]
  constructor
  · intro h i
    exact (viewPoints_eq_nil_iff H W (ks i) (exts i) (d i)).mp
      (h _ (List.mem_map_of_mem _ (List.mem_finRange i)))
  · intro h l hl
    simp only [List.mem_map] at hl
    obtain ⟨i, _, rfl⟩ := hl
    exact (viewPoints_eq_nil_iff H W (ks i) (exts i) (d i)).mpr (h i)

/-- C8 counterexample: two failure causes the claim's "exactly when" omits.
A prediction with depth, intrinsics and extrinsics present and a valid pixel
still fails when `processed_images` is missing; and one with all four fields
present and a valid pixel still fails when a view's extrinsic is singular
(`np.linalg.inv` at line 79 raises `LinAlgError`). -/
theorem build_unlisted_failure_causes :
    (buildPointCloudFromPrediction 1 1 1 predNoImages =
        .error "DA3 prediction missing processed_images" ∧
      predNoImages.depth ≠ none ∧ predNoImages.intrinsics ≠ none ∧
      predNoImages.extrinsics ≠ none ∧ hasValidPixel 1 1 1 predNoImages) ∧
    (buildPointCloudFromPrediction 1 1 1 predSingular = .error "Singular matrix" ∧
      predSingular.depth ≠ none ∧ predSingular.intrinsics ≠ none ∧
      predSingular.extrinsics ≠ none ∧ predSingular.processedImages ≠ none ∧
      hasValidPixel 1 1 1 predSingular) := by
  have hz : det4x4 (asHomogeneous44 (Extr.e34 (fun _ _ => 0))) = 0 := by decide
  refine ⟨⟨rfl, by simp [predNoImages], by simp [predNoImages], by simp [predNoImages],
    ⟨fun _ _ _ => 1, rfl, 0, 0, 0, by norm_num⟩⟩,
    ⟨?_, by simp [predSingular], by simp [predSingular], by simp [predSingular],
      by simp [predSingular], ⟨fun _ _ _ => 1, rfl, 0, 0, 0, by norm_num⟩⟩⟩
  simp only [buildPointCloudFromPrediction, predSingular]
  split
  · next hall => exact absurd hz (hall 0)
  · rfl

/-- C8 amended: the builder succeeds exactly when depth, intrinsics,
extrinsics and processed images are all present, every view's extrinsic is
invertible, and at least one view has a pixel with valid (positive, finite)
depth; in every other situation it fails with an error. -/
theorem build_point_cloud_ok_iff (N H W : ℕ) (p : Prediction N H W) :
    (∃ cloud, buildPointCloudFromPrediction N H W p = .ok cloud) ↔
      (p.depth ≠ none ∧ p.intrinsics ≠ none ∧ p.extrinsics ≠ none ∧
        p.processedImages ≠ none ∧ allExtrinsicsInvertible N H W p ∧
        hasValidPixel N H W p) := by
  obtain ⟨dep, imgs, ks, exts⟩ := p
  cases dep with
  | none => simp [buildPointCloudFromPrediction, hasValidPixel]
  | some d =>
    cases ks with
    | none => simp [buildPointCloudFromPrediction]
    | some ks =>
      cases exts with
      | none => simp [buildPointCloudFromPrediction, allExtrinsicsInvertible]
      | some exts =>
        cases imgs with
        | none => simp [buildPointCloudFromPrediction]
        | some imgs =>
          simp only [buildPointCloudFromPrediction, hasValidPixel,
            allExtrinsicsInvertible, ne_eq, Option.some.injEq, reduceCtorEq,
            not_false_iff, true_and, exists_eq_left']
          by_cases hinv : ∀ i : Fin N, det4x4 (asHomogeneous44 (exts i)) ≠ 0
          · rw [if_pos hinv]
            by_cases hnil :
                ((List.finRange N).map (fun i => viewPoints H W (ks i) (exts i) (d i))).flatten
                  = []
            · rw [if_pos hnil]
              have hnone := (allViewPoints_eq_nil_iff N H W ks exts d).mp hnil
              constructor
              · rintro ⟨cloud, hcloud⟩
                exact absurd hcloud (by simp)
              · rintro ⟨-, i, r, c, hpos⟩
                exact absurd hpos (hnone i r c)
            · rw [if_neg hnil]
              constructor
              · intro _
                have hne := (not_iff_not.mpr (allViewPoints_eq_nil_iff N H W ks exts d)).mp hnil
                push_neg at hne
                obtain ⟨i, r, c, hpos⟩ := hne
                exact ⟨hinv, i, r, c, hpos⟩
              · intro _
                exact ⟨_, rfl⟩
          · rw [if_neg hinv]
            constructor
            · rintro ⟨cloud, hcloud⟩
              exact absurd hcloud (by simp)
            · rintro ⟨hinv2, -⟩
              exact absurd hinv2 hinv

/-! ## Claim C7 -/

/-- The fold underlying `max(cluster, key=confidence)` returns its seed or a
list member. -/
theorem foldl_best_mem (d0 : Detection3D) (ds : List Detection3D) :
    ds.foldl (fun b e => if b.confidence < e.confidence then e else b) d0 = d0 ∨
    ds.foldl (fun b e => if b.confidence < e.confidence then e else b) d0 ∈ ds := by
  induction ds generalizing d0 with
  | nil => exact Or.inl rfl
  | cons e es ih =>
    simp only [List.foldl_cons]
    rcases ih (if d0.confidence < e.confidence then e else d0) with h | h
    · rw [h]
      split
      · exact Or.inr (List.mem_cons_self _ _)
      · exact Or.inl rfl
    · exact Or.inr (List.mem_cons_of_mem _ h)

/-- The fold underlying `max(cluster, key=confidence)` dominates its seed and
every list member. -/
theorem foldl_best_ge (d0 : Detection3D) (ds : List Detection3D) :
    d0.confidence ≤
      (ds.foldl (fun b e => if b.confidence < e.confidence then e else b) d0).confidence ∧
    ∀ e ∈ ds, e.confidence ≤
      (ds.foldl (fun b e => if b.confidence < e.confidence then e else b) d0).confidence := by
  induction ds generalizing d0 with
  | nil => simp
  | cons e es ih =>
    simp only [List.foldl_cons]
    obtain ⟨h1, h2⟩ := ih (if d0.confidence < e.confidence then e else d0)
    refine ⟨le_trans ?_ h1, ?_⟩
    · split
      · next hlt => exact le_of_lt hlt
      · exact le_refl _
    · intro a ha
      rcases List.mem_cons.mp ha with rfl | ha2
      · refine le_trans ?_ h1
        split
        · exact le_refl _
        · next hnlt => exact le_of_not_lt hnlt
      · exact h2 a ha2

/-- The best detection of a nonempty cluster is a member. -/
theorem bestDetection_mem (c : List Detection3D) (h : c ≠ []) : bestDetection c ∈ c := by
  match c with
  | d :: ds =>
    simp only [bestDetection]
    rcases foldl_best_mem d ds with h1 | h1
    · rw [h1]
      exact List.mem_cons_self _ _
    · exact List.mem_cons_of_mem _ h1

/-- The best detection's confidence dominates every cluster member's. -/
theorem bestDetection_max (c : List Detection3D) :
    ∀ d ∈ c, d.confidence ≤ (bestDetection c).confidence := by
  match c with
  | [] => intro d hd; cases hd
  | d :: ds =>
    intro a ha
    simp only [bestDetection]
    obtain ⟨h1, h2⟩ := foldl_best_ge d ds
    rcases List.mem_cons.mp ha with rfl | h3
    · exact h1
    · exact h2 a h3

/-- Inserting a detection into a list of nonempty clusters keeps them all
nonempty. -/
theorem insertDet_clusters_nonempty (thr : ℚ) (det : Detection3D)
    (cs : List (List Detection3D)) (h : ∀ c ∈ cs, c ≠ []) :
    ∀ c ∈ insertDet thr det cs, c ≠ [] := by
  induction cs with
  | nil =>
    intro c hc
    simp only [insertDet, List.mem_singleton] at hc
    simp [hc]
  | cons c0 rest ih =>
    intro c hc
    unfold insertDet at hc
    split at hc
    · rcases List.mem_cons.mp hc with rfl | h2
      · simp
      · exact h _ (List.mem_cons_of_mem _ h2)
    · rcases List.mem_cons.mp hc with rfl | h2
      · exact h _ (List.mem_cons_self _ _)
      · exact ih (fun c1 hc1 => h c1 (List.mem_cons_of_mem _ hc1)) _ h2

/-- Every cluster the greedy pass builds is nonempty. -/
theorem greedyClusters_nonempty (thr : ℚ) (dets : List Detection3D) :
    ∀ c ∈ greedyClusters thr dets, c ≠ [] := by
  unfold greedyClusters
  suffices h : ∀ (cs : List (List Detection3D)), (∀ c ∈ cs, c ≠ []) →
      ∀ c ∈ dets.foldl (fun a d => insertDet thr d a) cs, c ≠ [] by
    exact h [] (by simp)
  induction dets with
  | nil => exact fun cs h c hc => h c hc
  | cons d ds ih =>
    intro cs h c hc
    exact ih _ (insertDet_clusters_nonempty thr d cs h) c hc

/-- A member of a cluster after an insertion comes from an old cluster or is
the inserted detection. -/
theorem insertDet_mem_sub (thr : ℚ) (det : Detection3D) (cs : List (List Detection3D))
    (c : List Detection3D) (hc : c ∈ insertDet thr det cs) (x : Detection3D) (hx : x ∈ c) :
    (∃ c0 ∈ cs, x ∈ c0) ∨ x = det := by
  induction cs with
  | nil =>
    simp only [insertDet, List.mem_singleton] at hc
    subst hc
    rcases List.mem_singleton.mp hx with rfl
    exact Or.inr rfl
  | cons c0 rest ih =>
    unfold insertDet at hc
    split at hc
    · rcases List.mem_cons.mp hc with rfl | h2
      · rcases List.mem_append.mp hx with h3 | h3
        · exact Or.inl ⟨c0, List.mem_cons_self _ _, h3⟩
        · exact Or.inr (List.mem_singleton.mp h3)
      · exact Or.inl ⟨c, List.mem_cons_of_mem _ h2, hx⟩
    · rcases List.mem_cons.mp hc with rfl | h2
      · exact Or.inl ⟨c, List.mem_cons_self _ _, hx⟩
      · rcases ih h2 with ⟨c1, hc1, hx1⟩ | h3
        · exact Or.inl ⟨c1, List.mem_cons_of_mem _ hc1, hx1⟩
        · exact Or.inr h3

/-- Members of clusters built by the greedy fold come from the seed clusters
or the processed detections. -/
theorem foldl_insert_mem (thr : ℚ) (ds : List Detection3D) (cs : List (List Detection3D)) :
    ∀ c ∈ ds.foldl (fun a d => insertDet thr d a) cs, ∀ x ∈ c,
      (∃ c0 ∈ cs, x ∈ c0) ∨ x ∈ ds := by
  induction ds generalizing cs with
  | nil => exact fun c hc x hx => Or.inl ⟨c, hc, hx⟩
  | cons d ds ih =>
    intro c hc x hx
    rcases ih (insertDet thr d cs) c hc x hx with ⟨c0, hc0, hx0⟩ | h
    · rcases insertDet_mem_sub thr d cs c0 hc0 x hx0 with ⟨c1, hc1, hx1⟩ | rfl
      · exact Or.inl ⟨c1, hc1, hx1⟩
      · exact Or.inr (List.mem_cons_self _ _)
    · exact Or.inr (List.mem_cons_of_mem _ h)

/-- Every member of a greedy cluster is one of the clustered detections. -/
theorem greedyClusters_mem_sub (thr : ℚ) (dets : List Detection3D)
    (c : List Detection3D) (hc : c ∈ greedyClusters thr dets) (x : Detection3D)
    (hx : x ∈ c) : x ∈ dets := by
  rcases foldl_insert_mem thr dets [] c hc x hx with ⟨c0, hc0, _⟩ | h
  · cases hc0
  · exact h

/-- Labels without a palette entry fall back to neutral gray. -/
theorem markerColors_default (lab : String) (h : lab ∉ markerColorKeys) :
    markerColors lab = ⟨1/2, 1/2, 1/2⟩ := by
  simp only [markerColorKeys, List.mem_cons, List.not_mem_nil, or_false, not_or] at h
  obtain ⟨h1, h2, h3, h4, h5, h6, h7, h8, h9, h10⟩ := h
  simp only [markerColors, h1, h2, h3, h4, h5, h6, h7, h8, h9, h10, if_false]
  norm_num

/-- C7: every object produced by the merger comes from a nonempty same-label
cluster and has center equal to the coordinate-wise median of the union of
the cluster's points, confidence equal to the maximum member confidence, and
color from the fixed palette (neutral gray off-palette). -/
theorem merged_object_center_confidence_color (thrOpt : Option ℚ)
    (dets : List Detection3D) (obj : Object3D)
    (hobj : obj ∈ merge3dDetections thrOpt dets) :
    ∃ lab c, c ≠ [] ∧ obj = clusterToObject lab c ∧
      (∀ d ∈ c, d.label = lab) ∧
      obj.center = npMedianVec3 ((c.map (·.points)).flatten) ∧
      obj.confidence ∈ c.map (·.confidence) ∧
      (∀ d ∈ c, d.confidence ≤ obj.confidence) ∧
      obj.color = markerColors lab ∧
      (lab ∉ markerColorKeys → obj.color = ⟨1/2, 1/2, 1/2⟩) := by
  unfold merge3dDetections at hobj
  by_cases hd : dets = []
  · rw [if_pos hd] at hobj
    cases hobj
  · rw [if_neg hd] at hobj
    rw [List.mem_flatten] at hobj
    obtain ⟨L, hL, hobjL⟩ := hobj
    rw [List.mem_map] at hL
    obtain ⟨lab, _, rfl⟩ := hL
    rw [List.mem_map] at hobjL
    obtain ⟨c, hc, rfl⟩ := hobjL
    have hcne : c ≠ [] := greedyClusters_nonempty _ _ c hc
    refine ⟨lab, c, hcne, rfl, ?_, rfl, ?_, ?_, rfl, ?_⟩
    · intro d hd2
      have hmem := greedyClusters_mem_sub _ _ c hc d hd2
      exact of_decide_eq_true (List.mem_filter.mp hmem).2
    · exact List.mem_map_of_mem _ (bestDetection_mem c hcne)
    · exact bestDetection_max c
    · intro hnot
      exact markerColors_default lab hnot

/-- Witness for C7: merging two nearby chair detections yields the chair
object, whose fields satisfy the cluster properties. -/
theorem merged_object_center_confidence_color_witness :
    objChair ∈ merge3dDetections none [detChairA, detChairB] ∧
    ∃ lab c, c ≠ [] ∧ objChair = clusterToObject lab c ∧
      (∀ d ∈ c, d.label = lab) ∧
      objChair.center = npMedianVec3 ((c.map (·.points)).flatten) ∧
      objChair.confidence ∈ c.map (·.confidence) ∧
      (∀ d ∈ c, d.confidence ≤ objChair.confidence) ∧
      objChair.color = markerColors lab ∧
      (lab ∉ markerColorKeys → objChair.color = ⟨1/2, 1/2, 1/2⟩) :=
  ⟨by decide,
   merged_object_center_confidence_color none [detChairA, detChairB] objChair (by decide)⟩

/-! ## Claim C3 -/

/-- The downsampled cloud has one point per occupied voxel cell. -/
theorem voxelDownSample_length (cloud : List Vec3) (s : ℚ) :
    (voxelDownSample cloud s).length =
      ((cloud.map (voxelCell (bboxMin cloud) s)).dedup).length := by
  simp [voxelDownSample]

/-- Floor against a `k`-times-coarser positive step factors through the finer
floor. -/
theorem floor_div_nat_mul (y s : ℚ) (k : ℕ) (hs : 0 < s) (hk : 0 < k) :
    ⌊y / ((k : ℚ) * s)⌋ = ⌊((⌊y / s⌋ : ℤ) : ℚ) / (k : ℚ)⌋ := by
  have hk0 : (0 : ℚ) < (k : ℚ) := by exact_mod_cast hk
  set n : ℤ := ⌊y / s⌋ with hn
  set m : ℤ := ⌊(n : ℚ) / (k : ℚ)⌋ with hm
  have h1 : (n : ℚ) ≤ y / s := Int.floor_le _
  have h2 : y / s < n + 1 := Int.lt_floor_add_one _
  have hmle : (m : ℚ) ≤ (n : ℚ) / k := Int.floor_le _
  have hmlt : (n : ℚ) / k < m + 1 := Int.lt_floor_add_one _
  have hdiv : y / ((k : ℚ) * s) = y / s / k := by
    rw [div_div, mul_comm]
  rw [hdiv]
  refine Int.floor_eq_iff.mpr ⟨?_, ?_⟩
  · refine le_trans hmle ?_
    gcongr
  · have hq : (n : ℚ) < ((m : ℚ) + 1) * k := (div_lt_iff₀ hk0).mp hmlt
    have hint : n + 1 ≤ (m + 1) * (k : ℤ) := by
      have : (n : ℤ) < (m + 1) * (k : ℤ) := by exact_mod_cast hq
      omega
    have hcast : (n : ℚ) + 1 ≤ ((m : ℚ) + 1) * k := by exact_mod_cast hint
    calc y / s / k < ((n : ℚ) + 1) / k := by gcongr
      _ ≤ ((m : ℚ) + 1) * k / k := by gcongr
      _ = (m : ℚ) + 1 := by field_simp

/-- Mapping before deduplication can only reduce the number of distinct
values. -/
theorem dedup_length_map_le {α β : Type} [DecidableEq α] [DecidableEq β] (g : α → β)
    (l : List α) : ((l.map g).dedup).length ≤ l.dedup.length := by
  rw [← List.card_toFinset, ← List.card_toFinset]
  have himg : (l.map g).toFinset = l.toFinset.image g := by
    ext a
    simp [List.mem_toFinset, Finset.mem_image, List.mem_map]
  rw [himg]
  exact Finset.card_image_le

/-- A voxel grid whose edge is an integer multiple of a finer grid's edge
assigns cells that are a function of the finer cells. -/
theorem voxelCell_nested (mn : Vec3) (s : ℚ) (k : ℕ) (hs : 0 < s) (hk : 0 < k)
    (p : Vec3) : voxelCell mn ((k : ℚ) * s) p = cellCoarsen k (voxelCell mn s p) := by
  unfold voxelCell cellCoarsen
  simp only [Prod.mk.injEq]
  exact ⟨floor_div_nat_mul _ s k hs hk,
    floor_div_nat_mul _ s k hs hk, floor_div_nat_mul _ s k hs hk⟩

/-- Downsampling with a `k`-times-coarser voxel yields at most as many output
points (the grids are nested). -/
theorem voxelCount_anti_nested (cloud : List Vec3) (s : ℚ) (k : ℕ) (hs : 0 < s)
    (hk : 0 < k) :
    (voxelDownSample cloud ((k : ℚ) * s)).length ≤ (voxelDownSample cloud s).length := by
  rw [voxelDownSample_length, voxelDownSample_length]
  have hmap : cloud.map (voxelCell (bboxMin cloud) ((k : ℚ) * s)) =
      (cloud.map (voxelCell (bboxMin cloud) s)).map (cellCoarsen k) := by
    rw [List.map_map]
    exact List.map_congr_left (fun p _ => voxelCell_nested (bboxMin cloud) s k hs hk p)
  rw [hmap]
  exact dedup_length_map_le _ _

/-- C3 counterexample: a 28-point cloud exceeding the ordered budgets
`1 < 8 < 27`, whose exported per-tier point counts are `(2, 9, 3)` — the
medium tier exports more points than the full tier, refuting the claimed
monotonicity (voxel grids at edges 3 and 2 are not nested: a cluster that
splits into 8 cells at edge 3 collapses into one cell at edge 2). -/
theorem lod_monotonicity_counterexample :
    (1 < 8 ∧ 8 < 27) ∧
    (1 < cloudNonMono.length ∧ 8 < cloudNonMono.length ∧ 27 < cloudNonMono.length) ∧
    exportMultiLodGlb cbrtNonMono cloudNonMono [("preview", 1), ("medium", 8), ("full", 27)]
      = [("preview", 2), ("medium", 9), ("full", 3)] ∧
    ¬ (lodTier cbrtNonMono cloudNonMono 8).length ≤
        (lodTier cbrtNonMono cloudNonMono 27).length := by
  refine ⟨by decide, by decide, ?_, ?_⟩
  · set_option maxRecDepth 100000 in decide
  · set_option maxRecDepth 100000 in decide

/-- C3 amended: for ordered tier budgets and a cloud exceeding all of them,
the exported point counts are monotone provided each coarser tier's voxel
edge is an integer multiple of the next finer tier's (nested grids) — without
that proviso the counts need not be monotone, as the counterexample shows. -/
theorem lod_point_counts_monotone_nested (cbrt : ℚ → ℚ) (cloud : List Vec3)
    (tp tm tf : ℕ) (hord : tp < tm ∧ tm < tf)
    (hexceed : tp < cloud.length ∧ tm < cloud.length ∧ tf < cloud.length)
    (hnest1 : ∃ k : ℕ, 0 < k ∧
      cbrt (bboxVolume cloud / (tp : ℚ)) = (k : ℚ) * cbrt (bboxVolume cloud / (tm : ℚ)))
    (hnest2 : ∃ k : ℕ, 0 < k ∧
      cbrt (bboxVolume cloud / (tm : ℚ)) = (k : ℚ) * cbrt (bboxVolume cloud / (tf : ℚ)))
    (hpos : 0 < cbrt (bboxVolume cloud / (tf : ℚ))) :
    (lodTier cbrt cloud tp).length ≤ (lodTier cbrt cloud tm).length ∧
    (lodTier cbrt cloud tm).length ≤ (lodTier cbrt cloud tf).length := by
  obtain ⟨k1, hk1, he1⟩ := hnest1
  obtain ⟨k2, hk2, he2⟩ := hnest2
  have hsm : 0 < cbrt (bboxVolume cloud / (tm : ℚ)) := by
    rw [he2]
    exact mul_pos (by exact_mod_cast hk2) hpos
  unfold lodTier
  rw [if_pos hexceed.1, if_pos hexceed.2.1, if_pos hexceed.2.2]
  by_cases hvol : 0 < bboxVolume cloud
  · rw [if_pos hvol, if_pos hvol, if_pos hvol]
    constructor
    · rw [he1]
      exact voxelCount_anti_nested cloud _ k1 hsm hk1
    · rw [he2]
      exact voxelCount_anti_nested cloud _ k2 hpos hk2
  · rw [if_neg hvol, if_neg hvol, if_neg hvol]
    exact ⟨le_refl _, le_refl _⟩

/-- Witness for the amended C3: budgets `1 < 8 < 64` on the 66-point cloud
give nested voxel edges `6 = 2·3` and `3 = 2·(3/2)`, and the exported counts
are monotone. -/
theorem lod_point_counts_monotone_nested_witness :
    ((1 < 8 ∧ 8 < 64) ∧
     (1 < cloudNested.length ∧ 8 < cloudNested.length ∧ 64 < cloudNested.length) ∧
     cbrtNested (bboxVolume cloudNested / ((1 : ℕ) : ℚ)) =
       ((2 : ℕ) : ℚ) * cbrtNested (bboxVolume cloudNested / ((8 : ℕ) : ℚ)) ∧
     cbrtNested (bboxVolume cloudNested / ((8 : ℕ) : ℚ)) =
       ((2 : ℕ) : ℚ) * cbrtNested (bboxVolume cloudNested / ((64 : ℕ) : ℚ)) ∧
     0 < cbrtNested (bboxVolume cloudNested / ((64 : ℕ) : ℚ))) ∧
    ((lodTier cbrtNested cloudNested 1).length ≤ (lodTier cbrtNested cloudNested 8).length ∧
     (lodTier cbrtNested cloudNested 8).length ≤ (lodTier cbrtNested cloudNested 64).length) :=
  ⟨⟨⟨by decide, by decide⟩,
    ⟨by set_option maxRecDepth 100000 in decide, by set_option maxRecDepth 100000 in decide,
     by set_option maxRecDepth 100000 in decide⟩,
    by set_option maxRecDepth 100000 in decide,
    by set_option maxRecDepth 100000 in decide,
    by set_option maxRecDepth 100000 in decide⟩,
   lod_point_counts_monotone_nested cbrtNested cloudNested 1 8 64
     ⟨by decide, by decide⟩
     ⟨by set_option maxRecDepth 100000 in decide, by set_option maxRecDepth 100000 in decide,
      by set_option maxRecDepth 100000 in decide⟩
     ⟨2, by decide, by set_option maxRecDepth 100000 in decide⟩
     ⟨2, by decide, by set_option maxRecDepth 100000 in decide⟩
     (by set_option maxRecDepth 100000 in decide)⟩

end Epiplar
